import Mathlib

/-!
Shallow embedding of `src/examples/twisted/wamp/authentication/ticket/server.py`:
the ticket-based challenge-response authentication example.

Modelling conventions:
  * The Python dict `UserDb._tickets` is an association list, newest entry
    first; `add` removes any previous entry for the same authid and prepends
    the new one (dict overwrite), `get` takes the first match.
  * Python `None` values are `Option.none`; `self._tickets.get(authid,
    (None, None))` returns a pair whose components are `Option String`.
  * `UserDb.get` in the source wraps its result in `defer.succeed(...)`, an
    always-successful deferred; `UserDb.getDeferred` models that wrapper as an
    `Except` that is always `.ok`.  Because the deferred always succeeds, the
    `yield` inside `onHello` always unwraps to the underlying pair, so the
    handshake functions consume the plain pair directly.
  * The session attribute `self._pending_auth` is the state threaded through
    the handshake, of type `Option PendingAuth` (`None` or one record).
  * `onAuthenticate` in the source reads `self._pending_auth` and never
    assigns it, so its state-passing embedding returns the input state
    unchanged.
  * `onHello` additionally reports how many times `userdb.get` was invoked
    (`lookups`), the observable needed for the no-lookup property.
  * Python truthiness: `if ticket:` is false for `None` and for the empty
    string; `if details.authmethods:` is false for `None` and for the empty
    list (a `None` method list is modelled as `[]`; iterating over `[]` runs
    zero iterations, so the guard and the loop agree).
-/

/-- `UserDb`: the fake user database. Entries are `(authid, (ticket, authrole))`. -/
structure UserDb where
  tickets : List (String × String × String)
deriving DecidableEq

/-- `UserDb.add(authid, authrole, ticket)`: `self._tickets[authid] = (ticket, authrole)`.
Dict overwrite: any previous entry for `authid` is replaced.  (The Python
method also returns the stored pair; no caller uses it.) -/
def UserDb.add (db : UserDb) (authid authrole ticket : String) : UserDb :=
  ⟨(authid, ticket, authrole) :: db.tickets.filter (fun e => e.1 != authid)⟩

/-- `self._tickets.get(authid, (None, None))`: the pair stored for `authid`,
or `(None, None)` when absent. -/
def UserDb.get (db : UserDb) (authid : String) : Option String × Option String :=
  match db.tickets.find? (fun e => e.1 == authid) with
  | some e => (some e.2.1, some e.2.2)
  | none => (none, none)

/-- `UserDb.get` in the source returns `defer.succeed(...)`: an
always-successful asynchronous result carrying the looked-up pair. -/
def UserDb.getDeferred (db : UserDb) (authid : String) :
    Except String (Option String × Option String) :=
  Except.ok (db.get authid)

/-- `PendingAuth`: tracks one pending authentication.  `authrole` holds
whatever the credential lookup returned, which is a possibly-`None` value. -/
structure PendingAuth where
  signature : String
  authid : String
  authrole : Option String
  authmethod : String
  authprovider : String
deriving DecidableEq

/-- The fields of the WAMP `HELLO` details that `onHello` reads. -/
structure HelloDetails where
  authmethods : List String
  authid : String
deriving DecidableEq

/-- The decision values `types.Challenge`, `types.Accept`, `types.Deny`
returned by the handshake callbacks.  `types.Deny()` is `Deny none`
(no reason supplied at either call site). -/
inductive Decision where
  | Challenge (authmethod : String)
  | Accept (authid : String) (authrole : Option String) (authmethod : String)
      (authprovider : String)
  | Deny (reason : Option String)
deriving DecidableEq

/-- Result of one `onHello` call: the decision returned, the value left in
`self._pending_auth`, and the number of `userdb.get` invocations performed. -/
structure HelloOutcome where
  decision : Decision
  pending : Option PendingAuth
  lookups : Nat
deriving DecidableEq

namespace MyRouterSession

/-- The `for authmethod in details.authmethods` loop of `onHello`: for each
method equal to `"ticket"`, look the user up; if the stored ticket is truthy
(present and non-empty), build the `PendingAuth` and stop.  Returns the
pending record (if any) and the number of lookups performed. -/
def helloLoop (db : UserDb) (authid : String) :
    List String → Option PendingAuth × Nat
  | [] => (none, 0)
  | m :: ms =>
    if m == "ticket" then
      match db.get authid with
      | (some ticket, authrole) =>
        if ticket != "" then
          (some ⟨ticket, authid, authrole, m, "userdb"⟩, 1)
        else
          let r := helloLoop db authid ms
          (r.1, r.2 + 1)
      | (none, _) =>
        let r := helloLoop db authid ms
        (r.1, r.2 + 1)
    else helloLoop db authid ms

/-- `MyRouterSession.onHello(realm, details)`: reset `self._pending_auth` to
`None`, scan the offered methods; emit `Challenge('ticket')` when a pending
auth was set up, `Deny()` otherwise. -/
def onHello (db : UserDb) (realm : String) (details : HelloDetails) :
    HelloOutcome :=
  match helloLoop db details.authid details.authmethods with
  | (some pa, n) => ⟨Decision.Challenge "ticket", some pa, n⟩
  | (none, n) => ⟨Decision.Deny none, none, n⟩

/-- `MyRouterSession.onAuthenticate(signature, extra)`: if a pending auth
exists and the signature matches, `Accept` with the stored identity; else
`Deny()`.  The method never assigns `self._pending_auth`, so the state
component of the result is the input state. -/
def onAuthenticate (pending : Option PendingAuth) (signature : String)
    (extra : List (String × String)) : Decision × Option PendingAuth :=
  (match pending with
   | some pa =>
     if signature == pa.signature then
       Decision.Accept pa.authid pa.authrole pa.authmethod pa.authprovider
     else
       Decision.Deny none
   | none => Decision.Deny none,
   pending)

end MyRouterSession

/-- C1: `onAuthenticate` returns `Accept` iff a pending record exists and the
signature equals its stored secret, and the `Accept` carries exactly the
stored `(authid, authrole, authmethod, authprovider)`; in every other case
(no pending record, or signature mismatch) it returns `Deny`. -/
theorem onAuthenticate_accept_iff_signature_matches (pending : Option PendingAuth)
    (sig : String) (extra : List (String × String)) :
    (∀ pa, pending = some pa → sig = pa.signature →
      (MyRouterSession.onAuthenticate pending sig extra).1
        = Decision.Accept pa.authid pa.authrole pa.authmethod pa.authprovider) ∧
    (∀ pa, pending = some pa → sig ≠ pa.signature →
      (MyRouterSession.onAuthenticate pending sig extra).1 = Decision.Deny none) ∧
    (pending = none →
      (MyRouterSession.onAuthenticate pending sig extra).1 = Decision.Deny none) := by
  refine ⟨?_, ?_, ?_⟩
  · intro pa hp hs
    subst hp
    simp [MyRouterSession.onAuthenticate, hs]
  · intro pa hp hs
    subst hp
    simp [MyRouterSession.onAuthenticate, hs]
  · intro hp
    subst hp
    simp [MyRouterSession.onAuthenticate]

/-- Witness for C1: concrete pending record, matching and mismatching
signatures, and the no-record case. -/
theorem onAuthenticate_accept_iff_signature_matches_witness :
    (MyRouterSession.onAuthenticate
        (some ⟨"magic_secret_1", "peter", some "user", "ticket", "userdb"⟩)
        "magic_secret_1" []).1
      = Decision.Accept "peter" (some "user") "ticket" "userdb" ∧
    (MyRouterSession.onAuthenticate
        (some ⟨"magic_secret_1", "peter", some "user", "ticket", "userdb"⟩)
        "wrong_guess" []).1 = Decision.Deny none ∧
    (MyRouterSession.onAuthenticate none "magic_secret_1" []).1
      = Decision.Deny none := by
  refine ⟨?_, ?_, ?_⟩
  · exact (onAuthenticate_accept_iff_signature_matches _ _ _).1 _ rfl rfl
  · exact (onAuthenticate_accept_iff_signature_matches _ _ _).2.1 _ rfl (by decide)
  · exact (onAuthenticate_accept_iff_signature_matches _ _ _).2.2 rfl

/-- Shared helper: a hello offering exactly `["ticket"]` for an authid whose
lookup returns the empty pair is denied after one lookup, with no pending
record. -/
theorem onHello_singleton_ticket_absent (db : UserDb) (realm authid : String)
    (h : db.get authid = (none, none)) :
    MyRouterSession.onHello db realm ⟨["ticket"], authid⟩
      = ⟨Decision.Deny none, none, 1⟩ := by
  have hloop : MyRouterSession.helloLoop db authid ["ticket"]
      = (none, 1) := by
    simp [MyRouterSession.helloLoop, h]
  simp [MyRouterSession.onHello, hloop]

/-- C2: for an authid with no entry in the store, `onHello` with method list
`["ticket"]` returns `Deny` (never `Challenge`) and leaves no pending record
on the session. -/
theorem onHello_unknown_authid_denies (db : UserDb) (realm authid : String)
    (h : db.get authid = (none, none)) :
    MyRouterSession.onHello db realm ⟨["ticket"], authid⟩
      = ⟨Decision.Deny none, none, 1⟩ :=
  onHello_singleton_ticket_absent db realm authid h

/-- Witness for C2: the empty store knows no authid `"nobody"`. -/
theorem onHello_unknown_authid_denies_witness :
    UserDb.get ⟨[]⟩ "nobody" = (none, none) ∧
    MyRouterSession.onHello ⟨[]⟩ "realm1" ⟨["ticket"], "nobody"⟩
      = ⟨Decision.Deny none, none, 1⟩ :=
  ⟨by decide, onHello_unknown_authid_denies ⟨[]⟩ "realm1" "nobody" (by decide)⟩

/-- C3: with the store entry `peter ↦ (magic_secret_1, user)`, hello with
`["ticket"]` yields `Challenge("ticket")`; authenticating with the right
secret yields the full `Accept`, with a wrong guess yields `Deny`. -/
theorem scenario_peter :
    (MyRouterSession.onHello (UserDb.add ⟨[]⟩ "peter" "user" "magic_secret_1")
        "realm1" ⟨["ticket"], "peter"⟩).decision = Decision.Challenge "ticket" ∧
    (MyRouterSession.onAuthenticate
        (MyRouterSession.onHello (UserDb.add ⟨[]⟩ "peter" "user" "magic_secret_1")
          "realm1" ⟨["ticket"], "peter"⟩).pending
        "magic_secret_1" []).1
      = Decision.Accept "peter" (some "user") "ticket" "userdb" ∧
    (MyRouterSession.onAuthenticate
        (MyRouterSession.onHello (UserDb.add ⟨[]⟩ "peter" "user" "magic_secret_1")
          "realm1" ⟨["ticket"], "peter"⟩).pending
        "wrong_guess" []).1 = Decision.Deny none := by
  decide

/-- C4 counterexample: after one Challenge for peter, authenticating twice
with the correct secret yields `Accept` both times — the second call does not
return `Deny`, because `onAuthenticate` never discards the pending record. -/
theorem authenticate_twice_accepts_again :
    (MyRouterSession.onAuthenticate
        (MyRouterSession.onHello (UserDb.add ⟨[]⟩ "peter" "user" "magic_secret_1")
          "realm1" ⟨["ticket"], "peter"⟩).pending
        "magic_secret_1" []).1
      = Decision.Accept "peter" (some "user") "ticket" "userdb" ∧
    (MyRouterSession.onAuthenticate
        (MyRouterSession.onAuthenticate
          (MyRouterSession.onHello (UserDb.add ⟨[]⟩ "peter" "user" "magic_secret_1")
            "realm1" ⟨["ticket"], "peter"⟩).pending
          "magic_secret_1" []).2
        "magic_secret_1" []).1
      = Decision.Accept "peter" (some "user") "ticket" "userdb" := by
  decide

/-- C4 amended: `onAuthenticate` leaves the pending record in place, so a
second authenticate call after the first behaves exactly as a first call with
its signature would — it is not forced to `Deny`. -/
theorem onAuthenticate_preserves_pending (pending : Option PendingAuth)
    (sig1 sig2 : String) (extra1 extra2 : List (String × String)) :
    (MyRouterSession.onAuthenticate pending sig1 extra1).2 = pending ∧
    (MyRouterSession.onAuthenticate
        (MyRouterSession.onAuthenticate pending sig1 extra1).2 sig2 extra2).1
      = (MyRouterSession.onAuthenticate pending sig2 extra2).1 :=
  ⟨rfl, rfl⟩

/-- If `"ticket"` does not occur in the offered methods, the hello loop never
consults the store and sets up nothing. -/
theorem helloLoop_no_ticket (db : UserDb) (authid : String) :
    ∀ ms : List String, "ticket" ∉ ms →
      MyRouterSession.helloLoop db authid ms = (none, 0) := by
  intro ms
  induction ms with
  | nil => intro _; rfl
  | cons m ms ih =>
    intro h
    have hm : ¬ (m == "ticket") = true := by
      simp only [beq_iff_eq]
      intro he
      exact h (he ▸ List.mem_cons_self m ms)
    simp only [MyRouterSession.helloLoop, hm, if_neg, ite_false]
    exact ih (fun hmem => h (List.mem_cons_of_mem m hmem))

/-- C5: a hello whose offered methods do not contain `"ticket"` (in
particular an empty list) is denied with zero invocations of the store's
`get`, so the store is never consulted. -/
theorem onHello_no_ticket_no_lookup (db : UserDb) (realm : String)
    (details : HelloDetails) (h : "ticket" ∉ details.authmethods) :
    MyRouterSession.onHello db realm details = ⟨Decision.Deny none, none, 0⟩ := by
  simp [MyRouterSession.onHello, helloLoop_no_ticket db details.authid _ h]

/-- Witness for C5: unsupported methods, and the empty method list, against a
non-empty store. -/
theorem onHello_no_ticket_no_lookup_witness :
    ("ticket" ∉ (["wampcra", "anonymous"] : List String) ∧
      MyRouterSession.onHello (UserDb.add ⟨[]⟩ "peter" "user" "magic_secret_1")
        "realm1" ⟨["wampcra", "anonymous"], "peter"⟩
        = ⟨Decision.Deny none, none, 0⟩) ∧
    ("ticket" ∉ ([] : List String) ∧
      MyRouterSession.onHello (UserDb.add ⟨[]⟩ "peter" "user" "magic_secret_1")
        "realm1" ⟨[], "peter"⟩ = ⟨Decision.Deny none, none, 0⟩) :=
  ⟨⟨by decide,
      onHello_no_ticket_no_lookup _ "realm1" ⟨["wampcra", "anonymous"], "peter"⟩
        (by decide)⟩,
    ⟨by decide,
      onHello_no_ticket_no_lookup _ "realm1" ⟨[], "peter"⟩ (by decide)⟩⟩

/-- Filtering out the entries keyed `a` does not change the first entry found
for a different key `b`. -/
theorem find?_filter_other_key (a b : String) (l : List (String × String × String))
    (h : b ≠ a) :
    (l.filter (fun e => e.1 != a)).find? (fun e => e.1 == b)
      = l.find? (fun e => e.1 == b) := by
  induction l with
  | nil => rfl
  | cons x xs ih =>
    by_cases hx : x.1 = a
    · have hq : (x.1 != a) = false := by simp [hx]
      have hp : (x.1 == b) = false := by
        simp only [beq_eq_false_iff_ne, ne_eq, hx]
        exact fun he => h he.symm
      simp [List.filter_cons, hq, List.find?_cons, hp, ih]
    · have hq : (x.1 != a) = true := by simp [hx]
      by_cases hp : x.1 = b
      · simp [List.filter_cons, hq, List.find?_cons, hp, h]
      · have hp2 : (x.1 == b) = false := by simp [hp]
        simp [List.filter_cons, hq, List.find?_cons, hp2, ih]

/-- C6: after `add(a, r1, s1)` the lookup of `a` returns exactly
`(s1, r1)`; a second `add` for the same authid overwrites it, so the lookup
returns the last-written pair; entries for any other authid are unchanged. -/
theorem userdb_add_get (db : UserDb) (a b r1 r2 s1 s2 : String) :
    (UserDb.add db a r1 s1).get a = (some s1, some r1) ∧
    ((UserDb.add db a r1 s1).add a r2 s2).get a = (some s2, some r2) ∧
    (b ≠ a → (UserDb.add db a r1 s1).get b = db.get b) := by
  refine ⟨?_, ?_, ?_⟩
  · simp [UserDb.add, UserDb.get, List.find?_cons]
  · simp [UserDb.add, UserDb.get, List.find?_cons]
  · intro hb
    have hhead : ((a, s1, r1).1 == b) = false := by
      simp only [beq_eq_false_iff_ne, ne_eq]
      exact fun he => hb he.symm
    simp only [UserDb.add, UserDb.get, List.find?_cons, hhead, cond_false]
    rw [find?_filter_other_key a b db.tickets hb]

/-- Witness for C6: peter's entry survives an overwrite of joe's. -/
theorem userdb_add_get_witness :
    ("joe" : String) ≠ "peter" ∧
    (UserDb.add (UserDb.add ⟨[]⟩ "joe" "user" "magic_secret_2")
        "peter" "user" "magic_secret_1").get "joe"
      = (UserDb.add ⟨[]⟩ "joe" "user" "magic_secret_2").get "joe" :=
  ⟨by decide,
    (userdb_add_get (UserDb.add ⟨[]⟩ "joe" "user" "magic_secret_2")
        "peter" "joe" "user" "user" "magic_secret_1" "magic_secret_2").2.2
      (by decide)⟩

/-- C7: for an absent authid the lookup still succeeds (the deferred fires
with a value, never a failure) and the value is the empty pair. -/
theorem userdb_lookup_absent_ok (db : UserDb) (authid : String)
    (h : db.tickets.find? (fun e => e.1 == authid) = none) :
    db.getDeferred authid = Except.ok (none, none) ∧
    ∀ e, db.getDeferred authid ≠ Except.error e := by
  have hg : db.get authid = (none, none) := by
    simp [UserDb.get, h]
  exact ⟨by simp [UserDb.getDeferred, hg], fun e => by simp [UserDb.getDeferred]⟩

/-- Witness for C7: the empty store holds no entry for `"nobody"`. -/
theorem userdb_lookup_absent_ok_witness :
    UserDb.getDeferred ⟨[]⟩ "nobody" = Except.ok (none, none) :=
  (userdb_lookup_absent_ok ⟨[]⟩ "nobody" rfl).1

/-- C8: the `Deny` emitted for an unknown authid (from `onHello`) and the
`Deny` emitted for a wrong secret (from `onAuthenticate`) are the identical
value `Deny()`, carrying no reason. -/
theorem deny_indistinguishable (db : UserDb) (realm authid : String)
    (pa : PendingAuth) (sig : String) (extra : List (String × String))
    (hu : db.get authid = (none, none)) (hw : sig ≠ pa.signature) :
    (MyRouterSession.onHello db realm ⟨["ticket"], authid⟩).decision
      = Decision.Deny none ∧
    (MyRouterSession.onAuthenticate (some pa) sig extra).1
      = Decision.Deny none ∧
    (MyRouterSession.onHello db realm ⟨["ticket"], authid⟩).decision
      = (MyRouterSession.onAuthenticate (some pa) sig extra).1 := by
  have h1 : (MyRouterSession.onHello db realm ⟨["ticket"], authid⟩).decision
      = Decision.Deny none := by
    rw [onHello_singleton_ticket_absent db realm authid hu]
  have h2 : (MyRouterSession.onAuthenticate (some pa) sig extra).1
      = Decision.Deny none := by
    simp [MyRouterSession.onAuthenticate, hw]
  exact ⟨h1, h2, h1.trans h2.symm⟩

/-- Witness for C8: unknown `"nobody"` versus a wrong guess against peter's
pending record. -/
theorem deny_indistinguishable_witness :
    (MyRouterSession.onHello ⟨[]⟩ "realm1" ⟨["ticket"], "nobody"⟩).decision
      = (MyRouterSession.onAuthenticate
          (some ⟨"magic_secret_1", "peter", some "user", "ticket", "userdb"⟩)
          "wrong_guess" []).1 :=
  (deny_indistinguishable ⟨[]⟩ "realm1" "nobody"
      ⟨"magic_secret_1", "peter", some "user", "ticket", "userdb"⟩
      "wrong_guess" [] (by decide) (by decide)).2.2

/-- C9: an authid stored with the empty-string secret is denied by
`onHello(["ticket"])` exactly as if it were absent — the found-credential
branch tests the truthiness of the stored ticket, not entry presence — and
the outcome (decision, pending record, lookup count) equals the outcome for
the empty store. -/
theorem empty_secret_denies_like_absent (db : UserDb) (realm a role : String) :
    MyRouterSession.onHello (UserDb.add db a role "") realm ⟨["ticket"], a⟩
      = ⟨Decision.Deny none, none, 1⟩ ∧
    MyRouterSession.onHello (UserDb.add db a role "") realm ⟨["ticket"], a⟩
      = MyRouterSession.onHello ⟨[]⟩ realm ⟨["ticket"], a⟩ := by
  have hget : (UserDb.add db a role "").get a = (some "", some role) := by
    simp [UserDb.add, UserDb.get, List.find?_cons]
  have hloop : MyRouterSession.helloLoop (UserDb.add db a role "") a ["ticket"]
      = (none, 1) := by
    simp [MyRouterSession.helloLoop, hget]
  have h1 : MyRouterSession.onHello (UserDb.add db a role "") realm
      ⟨["ticket"], a⟩ = ⟨Decision.Deny none, none, 1⟩ := by
    simp [MyRouterSession.onHello, hloop]
  have h2 : MyRouterSession.onHello ⟨[]⟩ realm ⟨["ticket"], a⟩
      = ⟨Decision.Deny none, none, 1⟩ :=
    onHello_singleton_ticket_absent ⟨[]⟩ realm a rfl
  exact ⟨h1, h1.trans h2.symm⟩

/-- C10: `onHello` resets the pending-auth field before scanning, so whenever
it does not return a `Challenge`, the session is left with no pending record
and every subsequent `onAuthenticate` is denied. -/
theorem onHello_not_challenge_no_pending (db : UserDb) (realm : String)
    (details : HelloDetails)
    (h : ∀ m, (MyRouterSession.onHello db realm details).decision
        ≠ Decision.Challenge m) :
    (MyRouterSession.onHello db realm details).pending = none ∧
    ∀ sig extra,
      (MyRouterSession.onAuthenticate
          (MyRouterSession.onHello db realm details).pending sig extra).1
        = Decision.Deny none := by
  rcases hcase : MyRouterSession.helloLoop db details.authid details.authmethods
    with ⟨res, n⟩
  cases res with
  | some pa =>
    exfalso
    apply h "ticket"
    simp [MyRouterSession.onHello, hcase]
  | none =>
    have hp : (MyRouterSession.onHello db realm details).pending = none := by
      simp [MyRouterSession.onHello, hcase]
    refine ⟨hp, fun sig extra => ?_⟩
    rw [hp]
    rfl

/-- Witness for C10: the hello for unknown `"nobody"` returns `Deny`, leaves
no pending record, and a following authenticate is denied. -/
theorem onHello_not_challenge_no_pending_witness :
    (MyRouterSession.onHello ⟨[]⟩ "realm1" ⟨["ticket"], "nobody"⟩).pending
      = none ∧
    (MyRouterSession.onAuthenticate
        (MyRouterSession.onHello ⟨[]⟩ "realm1" ⟨["ticket"], "nobody"⟩).pending
        "magic_secret_1" []).1 = Decision.Deny none := by
  have hd : (MyRouterSession.onHello ⟨[]⟩ "realm1"
      ⟨["ticket"], "nobody"⟩).decision = Decision.Deny none := by decide
  have h := onHello_not_challenge_no_pending ⟨[]⟩ "realm1" ⟨["ticket"], "nobody"⟩
    (by intro m hm; rw [hd] at hm; exact Decision.noConfusion hm)
  exact ⟨h.1, h.2 "magic_secret_1" []⟩
